import Mathlib

/-!
Verification development for the "luademel-memos" itinerary/memories web
application.  The client logic (`script.js`) and the Express backend
(`server.js`) are shallowly embedded as executable Lean definitions, and the
behavioural claims about them are settled as theorems below.

Strings are manipulated through their underlying character lists so that all
definitions evaluate by kernel reduction on concrete inputs.
-/

/- ## JavaScript string primitives

Executable models of the JavaScript string operations used by the sources:
`String.prototype.trim`, `toLowerCase`, `includes`, `startsWith`, and
`parseInt(s, 10)`. -/

/-- Characters of `s` with leading and trailing whitespace removed
(JS `String.prototype.trim`). -/
def trimChars (cs : List Char) : List Char :=
  ((cs.dropWhile Char.isWhitespace).reverse.dropWhile Char.isWhitespace).reverse

/-- JS `s.trim()`. -/
def jsTrim (s : String) : String := String.mk (trimChars s.data)

/-- JS `s.toLowerCase()` (ASCII case folding, which covers every string the
sources compare). -/
def jsToLower (s : String) : String := String.mk (s.data.map Char.toLower)

/-- Does `needle` occur as a contiguous run inside the list? -/
def charsIncludes (needle : List Char) : List Char → Bool
  | [] => needle.isPrefixOf []
  | c :: t => needle.isPrefixOf (c :: t) || charsIncludes needle t

/-- JS `s.includes(sub)`. -/
def strIncludes (s sub : String) : Bool := charsIncludes sub.data s.data

/-- JS `s.startsWith(pre)`. -/
def jsStartsWith (s pre : String) : Bool := pre.data.isPrefixOf s.data

/-- Numeric value of a run of ASCII digits. -/
def digitsToNat (ds : List Char) : Nat := ds.foldl (fun a c => a * 10 + (c.toNat - 48)) 0

/-- Parse the leading run of ASCII digits; `none` when the run is empty. -/
def parseDigitRun (cs : List Char) : Option Nat :=
  let ds := cs.takeWhile Char.isDigit
  if ds.isEmpty then none else some (digitsToNat ds)

/-- JS `parseInt(s, 10)`: skip leading whitespace, optional sign, then the
leading digit run; `none` models `NaN`. -/
def parseIntJs (s : String) : Option Int :=
  let cs := s.data.dropWhile Char.isWhitespace
  match cs with
  | '-' :: rest => (parseDigitRun rest).map (fun n => -(n : Int))
  | '+' :: rest => (parseDigitRun rest).map (fun n => (n : Int))
  | _ => (parseDigitRun cs).map (fun n => (n : Int))

/-- JS truthiness of a possibly-absent string (`undefined`/`null`/`""` are
falsy). -/
def jsTruthy : Option String → Bool
  | none => false
  | some s => !(s == "")

/-- JS `Number.prototype.toString` on the itinerary day ids, which are
`parseInt` results: `none` models `NaN` and prints as `"NaN"`. -/
def jsNumToString : Option Int → String
  | some n => toString n
  | none => "NaN"

/- ## Itinerary extractor (`script.js`, `parseItinerary`)

The initial document carries one `.day-card` block per day.  A card exposes a
`data-day` attribute, optional `.day-title`/`.day-sub`/`.highlight` elements
and a list of `.schedule > li` rows, each with an optional `.time` element
(its text content), an optional `.transport` element (its inner HTML) and the
remaining row markup (the row's inner HTML after the time and transport
sub-elements have been removed from the clone). -/

/-- One `.schedule > li` row of a day card, as seen by the extractor. -/
structure DayRow where
  timeEl : Option String
  transportEl : Option String
  restHtml : String
deriving DecidableEq

/-- One `.day-card` block of the initial document. -/
structure DayCard where
  dataDay : String
  titleEl : Option String
  subEl : Option String
  highlightEl : Option String
  rows : List DayRow
deriving DecidableEq

/-- The live document, restricted to the day-card blocks the extractor
consumes. -/
structure Document where
  dayCards : List DayCard
deriving DecidableEq

/-- A schedule row record produced by the extractor. -/
structure ScheduleItem where
  time : String
  html : String
  transport : Option String
deriving DecidableEq

/-- One itinerary day record produced by the extractor.  `id` is the
`parseInt(card.dataset.day, 10)` result (`none` models `NaN`). -/
structure DayRecord where
  id : Option Int
  title : String
  subtitle : String
  highlight : Option String
  schedule : List ScheduleItem
deriving DecidableEq

/-- Extraction of one schedule row (the body of the `map` over
`.schedule > li` in `parseItinerary`). -/
def extractRow (li : DayRow) : ScheduleItem :=
  { time := match li.timeEl with
      | some t => jsTrim t
      | none => ""
    transport := li.transportEl.map jsTrim
    html := jsTrim li.restHtml }

/-- Extraction of one day card (the body of the `forEach` over `.day-card`
in `parseItinerary`). -/
def extractCard (card : DayCard) : DayRecord :=
  { id := parseIntJs card.dataDay
    title := match card.titleEl with
      | some t => jsTrim t
      | none => ""
    subtitle := match card.subEl with
      | some s => jsTrim s
      | none => ""
    highlight := card.highlightEl.map jsTrim
    schedule := card.rows.map extractRow }

/-- `card.remove()`: delete the card from the live document. -/
def removeCard (doc : Document) (c : DayCard) : Document :=
  { dayCards := doc.dayCards.erase c }

/-- `parseItinerary()`: walk the day cards of the document, extract a record
for each and remove the consumed card; returns the records together with the
document left behind. -/
def parseItinerary (doc : Document) : List DayRecord × Document :=
  doc.dayCards.foldl
    (fun acc card => (acc.1 ++ [extractCard card], removeCard acc.2 card))
    ([], doc)

/-- Well-formedness of the extractor input as assumed by the spec: every day
card has a numeric day attribute and the blocks appear in strictly ascending
id order. -/
def strictlyAscending : List (Option Int) → Bool
  | [] => true
  | [a] => a.isSome
  | a :: b :: t =>
      (match a, b with
       | some x, some y => decide (x < y)
       | _, _ => false)
      && strictlyAscending (b :: t)

/-- A document is well formed when its day cards carry parseable, strictly
ascending day numbers. -/
def wellFormedDoc (doc : Document) : Bool :=
  strictlyAscending (doc.dayCards.map (fun c => parseIntJs c.dataDay))

/- ## Per-item state store (localStorage) and diary aggregation

`localStorage` is modelled as an association list from keys to the decoded
JSON record stored under the key.  A value of `none` models a stored string
that `JSON.parse` rejects (the sources catch the exception and treat the
entry as absent).  Browsers expose the keys in an implementation-defined
order, so `lsSet` may place the updated pair at the end of the list. -/

/-- The decoded `{completed?, note?}` record stored for one schedule item. -/
structure JsItemState where
  completed : Option Bool
  note : Option String
deriving DecidableEq

/-- Decoded view of `localStorage`. -/
abbrev LocalStorage : Type := List (String × Option JsItemState)

/-- `localStorage.getItem(k)` followed by `JSON.parse`: `none` when the key
is absent, `some none` when the stored string does not decode. -/
def lsGet (ls : LocalStorage) (k : String) : Option (Option JsItemState) :=
  ((ls.find? (fun p => p.1 = k)).map (fun p => p.2))

/-- `localStorage.removeItem(k)` (also the "absent" store used to state
observational equivalence). -/
def lsRemove (ls : LocalStorage) (k : String) : LocalStorage :=
  ls.filter (fun p => p.1 ≠ k)

/-- `localStorage.setItem(k, JSON.stringify(v))`. -/
def lsSet (ls : LocalStorage) (k : String) (v : Option JsItemState) : LocalStorage :=
  lsRemove ls k ++ [(k, v)]

/-- The storage key `day-<dayId>-item-<index>` built by
`initScheduleItemsForDay` and `updateDayProgress`. -/
def itemKeyStr (dayId : String) (i : Nat) : String :=
  "day-" ++ dayId ++ "-item-" ++ toString i

/-- The same key for a numeric day id. -/
def itemKey (day : Nat) (i : Nat) : String := itemKeyStr (toString day) i

/-- The per-item completion check shared by `initScheduleItemsForDay` and the
loop of `updateDayProgress`: `data && data.completed`. -/
def itemCompleted (ls : LocalStorage) (dayId : String) (i : Nat) : Bool :=
  match lsGet ls (itemKeyStr dayId i) with
  | some (some st) => st.completed == some true
  | _ => false

/-- The note text displayed for a schedule item (`saved.note` when truthy,
otherwise the note display stays hidden). -/
def itemNoteDisplay (ls : LocalStorage) (dayId : String) (i : Nat) : Option String :=
  match lsGet ls (itemKeyStr dayId i) with
  | some (some st) =>
      match st.note with
      | some n => if n = "" then none else some n
      | none => none
  | _ => none

/-- The completed-count loop of `updateDayProgress`. -/
def completedCount (ls : LocalStorage) (dayId : String) (total : Nat) : Nat :=
  (List.range total).countP (fun i => itemCompleted ls dayId i)

/-- One aggregated diary entry. -/
structure DiaryEntry where
  day : Nat
  note : String
deriving DecidableEq

/-- The regular expression `^day-(\d+)-item-(\d+)$` used by `updateDiary`:
returns the two captured numbers on a full match. -/
def parseDayItemKey (s : String) : Option (Nat × Nat) :=
  match "day-".data.isPrefixOf s.data, s.data.drop 4 with
  | true, r1 =>
    let d1 := r1.takeWhile Char.isDigit
    let r2 := r1.dropWhile Char.isDigit
    if d1.isEmpty then none
    else
      match "-item-".data.isPrefixOf r2, r2.drop 6 with
      | true, r3 =>
        let d2 := r3.takeWhile Char.isDigit
        let r4 := r3.dropWhile Char.isDigit
        if d2.isEmpty then none
        else if r4.isEmpty then some (digitsToNat d1, digitsToNat d2) else none
      | false, _ => none
  | false, _ => none

/-- Stable insertion used to model the stable `Array.prototype.sort` with
comparator `(a, b) => a.day - b.day`. -/
def insertByDay (e : DiaryEntry) : List DiaryEntry → List DiaryEntry
  | [] => [e]
  | x :: xs => if e.day ≤ x.day then e :: x :: xs else x :: insertByDay e xs

/-- Sort diary entries by ascending day. -/
def sortByDay : List DiaryEntry → List DiaryEntry
  | [] => []
  | x :: xs => insertByDay x (sortByDay xs)

/-- The `DiaryEntry` list computed and rendered by `updateDiary`: scan every
stored key starting with `day-`, keep the records whose `note` is truthy and
whose key matches the day/item pattern, then sort by day. -/
def updateDiary (ls : LocalStorage) : List DiaryEntry :=
  let entries := ls.filterMap (fun kv =>
    if jsStartsWith kv.1 "day-" then
      match kv.2 with
      | some st =>
          if jsTruthy st.note then
            match parseDayItemKey kv.1 with
            | some (d, _) => some { day := d, note := st.note.getD "" }
            | none => none
          else none
      | none => none
    else none)
  sortByDay entries

/- ## Day-tab progress label (`updateDayProgress`) -/

/-- The tab label written by `updateDayProgress` for a day with `total`
schedule items of which `completed` are done. -/
def dayTabLabel (dayId : String) (total completed : Nat) : String :=
  let baseLabel := "Dia " ++ dayId
  if 0 < total then
    if completed = total then baseLabel ++ " ✓"
    else baseLabel ++ " (" ++ toString completed ++ "/" ++ toString total ++ ")"
  else baseLabel

/-- `updateDayProgress(dayId)`: look the day up in the itinerary data, count
its completed items in storage and produce the new tab label (`none` when no
day matches and the function returns without touching the tab). -/
def updateDayProgress (ls : LocalStorage) (days : List DayRecord) (dayId : String) :
    Option String :=
  match days.find? (fun d => jsNumToString d.id = dayId) with
  | none => none
  | some day =>
      let total := day.schedule.length
      let completed := completedCount ls dayId total
      some (dayTabLabel dayId total completed)

/- ## Tab strip keyboard navigation (`handleTabKeyNav`) -/

/-- One tab button of the tab strip: its DOM id (`tab-<viewId>`) and whether
`aria-selected` is `"true"`. -/
structure TabBtn where
  domId : String
  selected : Bool
deriving DecidableEq

/-- The keys `handleTabKeyNav` distinguishes. -/
inductive JsKey where
  | arrowRight
  | arrowLeft
  | homeKey
  | endKey
  | enter
  | space
  | otherKey
deriving DecidableEq

/-- `getIdFromTab`: strip the leading `tab-` from a tab's DOM id. -/
def getIdFromTab (domId : String) : String :=
  if jsStartsWith domId "tab-" then String.mk (domId.data.drop 4) else domId

/-- `findIndex` of the tab with `aria-selected="true"` (`-1` when none). -/
def findSelectedIndex (tabs : List TabBtn) : Int :=
  match tabs.findIdx? (fun t => t.selected) with
  | some i => (i : Int)
  | none => -1

/-- Observable outcome of one key press in the tab strip: the tab that
receives focus (if any) and the view id passed to `openTab` (if any). -/
structure NavEffect where
  focused : Option String
  opened : Option String
deriving DecidableEq

/-- The tail of `handleTabKeyNav` shared by the arrow/Home/End arms: clamp
`newIndex` into range, focus the tab at that position and activate it. -/
def moveToIndex (tabs : List TabBtn) (newIndex : Int) : NavEffect :=
  let len : Int := (tabs.length : Int)
  let ni : Int := if newIndex < 0 then 0 else newIndex
  let ni : Int := if len ≤ ni then len - 1 else ni
  match tabs[ni.toNat]? with
  | some t => { focused := some (getIdFromTab t.domId),
                opened := some (getIdFromTab t.domId) }
  | none => { focused := none, opened := none }

/-- `handleTabKeyNav(e)`.  `target` is the event target when it is one of the
tab buttons (`role="tab"`), `none` otherwise.  Index arithmetic uses the JS
truncating `%` (`Int.tmod`); the new index is computed from the index of the
currently selected tab. -/
def handleTabKeyNav (tabs : List TabBtn) (key : JsKey) (target : Option TabBtn) :
    NavEffect :=
  if tabs.length = 0 then { focused := none, opened := none }
  else
    let len : Int := (tabs.length : Int)
    let currentIndex : Int := findSelectedIndex tabs
    match key with
    | JsKey.arrowRight => moveToIndex tabs ((currentIndex + 1).tmod len)
    | JsKey.arrowLeft => moveToIndex tabs ((currentIndex - 1 + len).tmod len)
    | JsKey.homeKey => moveToIndex tabs 0
    | JsKey.endKey => moveToIndex tabs (len - 1)
    | JsKey.enter | JsKey.space =>
        match target with
        | some t => { focused := none, opened := some (getIdFromTab t.domId) }
        | none => { focused := none, opened := none }
    | JsKey.otherKey => { focused := none, opened := none }

/- ## Tab activation (`openTab`) -/

/-- Observable effects of `openTab(id)`: the selection state written to each
tab, the value stored under `lastDay` (if any), and the `dia` query parameter
of the address after `history.replaceState`. -/
structure OpenTabEffects where
  selected : List (String × Bool)
  lastDayWrite : Option String
  urlDia : Option String
deriving DecidableEq

/-- `openTab(id)` over the tab strip `tabDomIds`.  The previous value of the
`dia` parameter is never read: the handler either deletes it (diary) or
overwrites it with `id`. -/
def openTab (tabDomIds : List String) (id : String) : OpenTabEffects :=
  { selected := tabDomIds.map (fun d => (d, getIdFromTab d == id))
    lastDayWrite := if id ≠ "diary" && id ≠ "memories" then some id else none
    urlDia := if id = "diary" then none else some id }

/- ## Startup view resolution (`restoreLastDay`) -/

/-- The first-day/diary fallback of `restoreLastDay`. -/
def fallbackFirstDay (days : List DayRecord) : String :=
  match days with
  | [] => "diary"
  | d :: _ => jsNumToString d.id

/-- `restoreLastDay(itineraryData)`: the view id passed to `openTab` at
startup.  `urlDia` is `params.get('dia')` when `params.has('dia')`, and
`stored` is `localStorage.getItem('lastDay')`; the combined value is
re-checked for JS truthiness (`if (!id)`) before the fallback applies. -/
def restoreLastDay (urlDia stored : Option String) (days : List DayRecord) : String :=
  let id : Option String := if urlDia.isSome then urlDia else stored
  match id with
  | some v => if v = "" then fallbackFirstDay days else v
  | none => fallbackFirstDay days

/- ## Day panel navigation buttons (`createPanel`) -/

/-- The previous/next-day navigation controls of a day panel: each field is
`some target` when the button is rendered, with `target` the view id its
click handler passes to `openTab`. -/
structure DayPanelNav where
  prevBtn : Option String
  nextBtn : Option String
deriving DecidableEq

/-- The day-panel branch of `createPanel(id)`, restricted to the navigation
controls: look the day up by id, then render the previous-day button when
`day.id > 1` and the next-day button when `day.id < itineraryData.length`
(comparisons against `NaN` are false). -/
def createPanelNav (days : List DayRecord) (id : String) : Option DayPanelNav :=
  match days.find? (fun d => jsNumToString d.id = id) with
  | none => none
  | some day =>
      some { prevBtn :=
               match day.id with
               | some n => if 1 < n then some (toString (n - 1)) else none
               | none => none
             nextBtn :=
               match day.id with
               | some n => if n < (days.length : Int) then some (toString (n + 1)) else none
               | none => none }

/- ## Backend data model (`server.js`)

`database.json` holds a `memories` array and a `comments` array.  The `day`
field of a memory is stored either as a number or as a string, depending on
whether `Number(day)` parses; both are only ever observed through
`String(m.day)`. -/

/-- A memory's `day` field: a JS number or a string. -/
inductive DayVal where
  | num (n : Int)
  | str (s : String)
deriving DecidableEq

/-- JS `String(v)` on a `day` value. -/
def DayVal.toStr : DayVal → String
  | DayVal.num n => toString n
  | DayVal.str s => s

/-- A server-owned memory record. -/
structure Memory where
  id : String
  user : String
  title : String
  text : String
  date : String
  tags : List String
  location : String
  status : String
  media : List String
  day : Option DayVal
  createdAt : String
  updatedAt : String
  reactions : List (String × Nat)
deriving DecidableEq

/-- A comment attached to a memory. -/
structure Comment where
  id : String
  memoryId : String
  user : String
  text : String
  createdAt : String
  reactions : List (String × Nat)
deriving DecidableEq

/-- The JSON database. -/
structure DB where
  memories : List Memory
  comments : List Comment
deriving DecidableEq

/- ## `GET /memories` (filtered listing) -/

/-- The query parameters of `GET /memories`; `none` models an absent
parameter. -/
structure MemQuery where
  tag : Option String
  status : Option String
  q : Option String
  from_ : Option String
  to_ : Option String
  day : Option String
deriving DecidableEq

/-- JS `new Date(a) >= new Date(b)` where the dates have been resolved to
millisecond timestamps by `parseDate` (`none` models an invalid date; every
comparison against `NaN` is false). -/
def jsDateGe : Option Int → Option Int → Bool
  | some a, some b => decide (b ≤ a)
  | _, _ => false

/-- JS `new Date(a) <= new Date(b)` under the same conventions. -/
def jsDateLe : Option Int → Option Int → Bool
  | some a, some b => decide (a ≤ b)
  | _, _ => false

/-- The guard of the `day` filter: `day !== undefined && day !== null &&
String(day).trim() !== ''`. -/
def dayParamActive : Option String → Bool
  | some s => !(jsTrim s == "")
  | none => false

/-- The `day` filter predicate: the memory has a `day` field and
`String(m.day) === dayStr`. -/
def dayMatches (dayStr : String) (m : Memory) : Bool :=
  match m.day with
  | some v => v.toStr == dayStr
  | none => false

/-- The filter cascade of the `GET /memories` handler.  `parseDate` stands
for the JS `Date` constructor resolved to a timestamp. -/
def getMemoriesList (memories : List Memory) (qy : MemQuery)
    (parseDate : String → Option Int) : List Memory :=
  let ms := memories
  let ms := if jsTruthy qy.tag then
      let tagLower := jsToLower (qy.tag.getD "")
      ms.filter (fun m => m.tags.any (fun t => jsToLower t == tagLower))
    else ms
  let ms := if jsTruthy qy.status then
      ms.filter (fun m => m.status == qy.status.getD "")
    else ms
  let ms := if dayParamActive qy.day then
      ms.filter (dayMatches (qy.day.getD ""))
    else ms
  let ms := if jsTruthy qy.from_ then
      let fromDate := parseDate (qy.from_.getD "")
      ms.filter (fun m => jsDateGe (parseDate m.date) fromDate)
    else ms
  let ms := if jsTruthy qy.to_ then
      let toDate := parseDate (qy.to_.getD "")
      ms.filter (fun m => jsDateLe (parseDate m.date) toDate)
    else ms
  let ms := if jsTruthy qy.q then
      let search := jsToLower (qy.q.getD "")
      ms.filter (fun m =>
        (m.title ≠ "" && strIncludes (jsToLower m.title) search)
        || (m.text ≠ "" && strIncludes (jsToLower m.text) search))
    else ms
  ms

/-- The `GET /memories` route including the `requireAuth` middleware:
`sessionUser` is the logged-in username, if any. -/
def getMemoriesRoute (sessionUser : Option String) (db : DB) (qy : MemQuery)
    (parseDate : String → Option Int) : Nat × List Memory :=
  match sessionUser with
  | none => (401, [])
  | some _ => (200, getMemoriesList db.memories qy parseDate)

/- ## `PUT /memories/:id` and `DELETE /memories/:id` -/

/-- A `tags` body field: multipart clients may send an array or a single
comma-separated string. -/
inductive JsTags where
  | arr (l : List String)
  | str (s : String)
deriving DecidableEq

/-- `String(tags).split(',').map(s => s.trim()).filter(s => s)`. -/
def splitTags (s : String) : List String :=
  ((s.splitOn ",").map jsTrim).filter (fun t => t ≠ "")

/-- JS `Number(s)` restricted to the decimal integer forms the application
exchanges (`none` models `NaN`; other numeric literal shapes are not
exercised by any theorem below). -/
def jsNumberOpt (s : String) : Option Int :=
  let cs := (jsTrim s).data
  match cs with
  | [] => some 0
  | '-' :: rest =>
      if rest ≠ [] && rest.all Char.isDigit then some (-(digitsToNat rest : Int)) else none
  | '+' :: rest =>
      if rest ≠ [] && rest.all Char.isDigit then some ((digitsToNat rest : Int)) else none
  | _ => if cs.all Char.isDigit then some ((digitsToNat cs : Int)) else none

/-- The request body of `PUT /memories/:id`; `none` models an omitted
field. -/
structure PutBody where
  title : Option String
  text : Option String
  date : Option String
  tags : Option JsTags
  location : Option String
  status : Option String
  day : Option String
deriving DecidableEq

/-- The `day` normalisation shared by `POST` and `PUT`:
`isNaN(Number(day)) ? String(day) : Number(day)`. -/
def normalizeDay (d : String) : DayVal :=
  match jsNumberOpt d with
  | some n => DayVal.num n
  | none => DayVal.str d

/-- `PUT /memories/:id`: look the memory up, reject non-owners with 403,
otherwise apply the partial update (appending uploaded media) and bump
`updatedAt`.  Returns the HTTP status together with the database after the
request. -/
def putMemory (db : DB) (username : String) (mid : String) (body : PutBody)
    (files : List String) (now : String) : Nat × DB :=
  match db.memories.findIdx? (fun m => m.id = mid) with
  | none => (404, db)
  | some idx =>
      match db.memories[idx]? with
      | none => (404, db)
      | some mem =>
          if mem.user ≠ username then (403, db)
          else
            let mem := { mem with title := body.title.getD mem.title }
            let mem := { mem with text := body.text.getD mem.text }
            let mem := { mem with date := body.date.getD mem.date }
            let mem := { mem with tags :=
              match body.tags with
              | some (JsTags.arr l) => l
              | some (JsTags.str s) => splitTags s
              | none => mem.tags }
            let mem := { mem with location := body.location.getD mem.location }
            let mem := { mem with status := body.status.getD mem.status }
            let mem := { mem with day :=
              match body.day with
              | some d => if jsTrim d = "" then none else some (normalizeDay d)
              | none => mem.day }
            let mem := { mem with media :=
              if files ≠ [] then mem.media ++ files.map (fun f => "/uploads/" ++ f)
              else mem.media }
            let mem := { mem with updatedAt := now }
            (200, { db with memories := db.memories.set idx mem })

/-- `DELETE /memories/:id`: look the memory up, reject non-owners with 403,
otherwise remove the memory and every comment tied to it (the unlinking of
media files on disk is outside the database state). -/
def deleteMemory (db : DB) (username : String) (mid : String) : Nat × DB :=
  match db.memories.findIdx? (fun m => m.id = mid) with
  | none => (404, db)
  | some idx =>
      match db.memories[idx]? with
      | none => (404, db)
      | some mem =>
          if mem.user ≠ username then (403, db)
          else (200, { memories := db.memories.eraseIdx idx
                       comments := db.comments.filter (fun c => c.memoryId ≠ mem.id) })

/- ## `POST /auth/login` -/

/-- Outcome of a login request: HTTP status, response text and the session
user recorded by the request (if any). -/
structure LoginResult where
  status : Nat
  body : String
  sessionUser : Option String
deriving DecidableEq

/-- `POST /auth/login` over the configured `USERS` table (an association
list, since JS object keys are unique).  Missing and empty fields are falsy;
`USERS[username] && USERS[username] === password` grants the session. -/
def authLogin (users : List (String × String)) (username password : Option String) :
    LoginResult :=
  if !(jsTruthy username) || !(jsTruthy password) then
    { status := 400, body := "Usuário e senha são obrigatórios", sessionUser := none }
  else
    let un := username.getD ""
    let pw := password.getD ""
    match users.find? (fun p => p.1 = un) with
    | some entry =>
        if entry.2 ≠ "" && entry.2 == pw then
          { status := 200, body := "Login realizado com sucesso", sessionUser := some un }
        else { status := 401, body := "Credenciais inválidas", sessionUser := none }
    | none => { status := 401, body := "Credenciais inválidas", sessionUser := none }

/- ## Specification-side filter predicate

`memoriesFilterSpec` phrases the interface contract for `GET /memories` the
way the specification states it (per-parameter match conditions); the claim
theorem below compares the handler's filter cascade against it. -/

/-- A memory satisfies all supplied filters, as the interface contract
describes them: `q` matches when the lowercased title or text contains the
lowercased query; `status` requires exact equality; a present, non-blank
`day` requires the string form of the memory's `day` field to equal the
parameter; `from`/`to` bound the memory's `date` inclusively. -/
def memoriesFilterSpec (qy : MemQuery) (parseDate : String → Option Int)
    (m : Memory) : Prop :=
  (jsTruthy qy.q = true →
      strIncludes (jsToLower m.title) (jsToLower (qy.q.getD "")) = true
      ∨ strIncludes (jsToLower m.text) (jsToLower (qy.q.getD "")) = true)
  ∧ (∀ s, qy.status = some s → s ≠ "" → m.status = s)
  ∧ (∀ d, qy.day = some d → jsTrim d ≠ "" → ∃ v, m.day = some v ∧ DayVal.toStr v = d)
  ∧ (jsTruthy qy.from_ = true →
      jsDateGe (parseDate m.date) (parseDate (qy.from_.getD "")) = true)
  ∧ (jsTruthy qy.to_ = true →
      jsDateLe (parseDate m.date) (parseDate (qy.to_.getD "")) = true)

/- ## Helper lemmas -/

theorem strIncludes_empty_left (sub : String) (h : strIncludes "" sub = true) :
    sub.data = [] := by
  cases hs : sub.data with
  | nil => rfl
  | cons c t =>
      unfold strIncludes charsIncludes at h
      rw [hs] at h
      simp [List.isPrefixOf] at h

theorem jsToLower_data_nil (s : String) (h : (jsToLower s).data = []) : s.data = [] := by
  unfold jsToLower at h
  cases hs : s.data with
  | nil => rfl
  | cons c t => rw [hs] at h; simp at h

theorem find?_lsRemove (ls : LocalStorage) (k : String) :
    (lsRemove ls k).find? (fun p => p.1 = k) = none := by
  induction ls with
  | nil => rfl
  | cons p t ih =>
      unfold lsRemove at ih ⊢
      by_cases h : p.1 = k
      · simp [List.filter_cons, h, ih]
      · simp [List.filter_cons, h, List.find?_cons, ih]

theorem lsGet_lsSet_self (ls : LocalStorage) (k : String) (v : Option JsItemState) :
    lsGet (lsSet ls k v) k = some v := by
  unfold lsSet lsGet
  rw [List.find?_append, find?_lsRemove]
  simp [List.find?]

theorem lsGet_lsRemove_self (ls : LocalStorage) (k : String) :
    lsGet (lsRemove ls k) k = none := by
  unfold lsGet
  rw [find?_lsRemove]
  rfl

theorem lsGet_lsSet_other (ls : LocalStorage) (k k' : String) (v : Option JsItemState)
    (h : k' ≠ k) : lsGet (lsSet ls k v) k' = lsGet (lsRemove ls k) k' := by
  unfold lsSet lsGet
  rw [List.find?_append]
  have hne : ¬ ((k, v).1 = k') := fun he => h he.symm
  simp [List.find?_cons, hne]

theorem eq_empty_of_data_nil (s : String) (h : s.data = []) : s = "" := by
  cases s with
  | mk data => cases h; rfl

theorem parseItinerary_fst_aux (cards : List DayCard) (acc : List DayRecord × Document) :
    (cards.foldl (fun a card => (a.1 ++ [extractCard card], removeCard a.2 card)) acc).1
      = acc.1 ++ cards.map extractCard := by
  induction cards generalizing acc with
  | nil => simp
  | cons c t ih => simp [List.foldl_cons, ih]

theorem parseItinerary_snd_aux (cards : List DayCard) (acc : List DayRecord × Document)
    (h : acc.2.dayCards = cards) :
    (cards.foldl (fun a card => (a.1 ++ [extractCard card], removeCard a.2 card)) acc).2.dayCards
      = [] := by
  induction cards generalizing acc with
  | nil => exact h
  | cons c t ih =>
      rw [List.foldl_cons]
      apply ih
      simp [removeCard, h, List.erase_cons_head]

theorem moveToIndex_getElem (tabs : List TabBtn) (i : Nat) (t : TabBtn)
    (hi : tabs[i]? = some t) :
    moveToIndex tabs (i : Int) = { focused := some (getIdFromTab t.domId),
                                   opened := some (getIdFromTab t.domId) } := by
  have hlen : i < tabs.length := by
    by_contra hc
    rw [List.getElem?_eq_none (Nat.le_of_not_lt hc)] at hi
    exact Option.noConfusion hi
  have h1 : ¬ ((i : Int) < 0) := by omega
  have h2 : ¬ ((tabs.length : Int) ≤ (i : Int)) := by exact_mod_cast Nat.not_le.mpr hlen
  unfold moveToIndex
  simp [h1, h2, hi]

theorem qFilter_iff (title text s : String) (hs : s ≠ "") :
    ((title ≠ "" && strIncludes (jsToLower title) (jsToLower s))
      || (text ≠ "" && strIncludes (jsToLower text) (jsToLower s))) = true
    ↔ (strIncludes (jsToLower title) (jsToLower s) = true
       ∨ strIncludes (jsToLower text) (jsToLower s) = true) := by
  have hzero : jsToLower "" = "" := rfl
  have hlow : jsToLower s ≠ "" := by
    intro he
    apply hs
    apply eq_empty_of_data_nil
    apply jsToLower_data_nil
    rw [he]
  constructor
  · intro h
    simp only [Bool.or_eq_true, Bool.and_eq_true, decide_eq_true_eq] at h
    rcases h with h' | h'
    · exact Or.inl h'.2
    · exact Or.inr h'.2
  · intro h
    simp only [Bool.or_eq_true, Bool.and_eq_true, decide_eq_true_eq]
    rcases h with h' | h'
    · refine Or.inl ⟨?_, h'⟩
      intro he
      rw [he, hzero] at h'
      exact hlow (eq_empty_of_data_nil _ (strIncludes_empty_left _ h'))
    · refine Or.inr ⟨?_, h'⟩
      intro he
      rw [he, hzero] at h'
      exact hlow (eq_empty_of_data_nil _ (strIncludes_empty_left _ h'))

theorem mem_guard_filter (m : Memory) (c : Bool) (p : Memory → Bool) (l : List Memory) :
    m ∈ (if c then l.filter p else l) ↔ m ∈ l ∧ (c = true → p m = true) := by
  cases c <;> simp [List.mem_filter]

/- ## Claim theorems -/

/-- C1 (counterexample): the startup claim "if the URL has a `dia` query
parameter, its value is the initially activated view; … for every pair
(url-param, stored-lastDay) with both present, the url-param wins" fails for
the address `?dia=` (parameter present with empty value) together with the
stored `lastDay` `"3"` and a one-day itinerary: the activated view is day
`"1"`, which is neither the parameter's value `""` nor the stored `"3"`. -/
theorem c1_startup_counterexample :
    restoreLastDay (some "") (some "3")
        [{ id := some 1, title := "", subtitle := "", highlight := none, schedule := [] }]
      = "1"
    ∧ ("1" : String) ≠ "" ∧ ("1" : String) ≠ "3" := by
  refine ⟨by decide, by decide, by decide⟩

/-- C1 (amended): startup resolution with JS truthiness made explicit: a
`dia` parameter with a non-empty value is the activated view (and wins over
any stored value); an empty-valued parameter skips the stored `lastDay`
entirely and falls through to the first day (or the diary with zero days); a
missing parameter defers to a non-empty stored `lastDay`; failing that the
first itinerary day is activated, or the diary when there are no days. -/
theorem c1_startup_resolution (urlDia stored : Option String) (days : List DayRecord) :
    (∀ v, urlDia = some v → v ≠ "" → restoreLastDay urlDia stored days = v)
    ∧ (urlDia = some "" → restoreLastDay urlDia stored days = fallbackFirstDay days)
    ∧ (urlDia = none → ∀ w, stored = some w → w ≠ "" →
        restoreLastDay urlDia stored days = w)
    ∧ (urlDia = none → (stored = none ∨ stored = some "") →
        restoreLastDay urlDia stored days = fallbackFirstDay days)
    ∧ (∀ d ds, days = d :: ds → fallbackFirstDay days = jsNumToString d.id)
    ∧ (days = [] → fallbackFirstDay days = "diary") := by
  refine ⟨?_, ?_, ?_, ?_, ?_, ?_⟩
  · intro v hv hne
    subst hv
    simp [restoreLastDay, hne]
  · intro hv
    subst hv
    simp [restoreLastDay]
  · intro hu w hw hne
    subst hu
    subst hw
    simp [restoreLastDay, hne]
  · intro hu hst
    subst hu
    rcases hst with h | h <;> subst h <;> simp [restoreLastDay]
  · intro d ds hd
    subst hd
    rfl
  · intro hd
    subst hd
    rfl

/-- C1 (witness for the amended theorem): concrete startup scenarios — a
non-empty `dia=2` beats stored `3`; without a parameter the stored `3` wins;
with neither, a non-empty itinerary activates its first day; with zero days
the diary is activated. -/
theorem c1_startup_resolution_witness :
    restoreLastDay (some "2") (some "3") [] = "2"
    ∧ restoreLastDay none (some "3") [] = "3"
    ∧ restoreLastDay none none
        [{ id := some 1, title := "", subtitle := "", highlight := none, schedule := [] }]
      = "1"
    ∧ restoreLastDay none none [] = "diary" := by
  refine ⟨(c1_startup_resolution (some "2") (some "3") []).1 "2" rfl (by decide),
          (c1_startup_resolution none (some "3") []).2.2.1 rfl "3" rfl (by decide),
          ((c1_startup_resolution none none _).2.2.2.1 rfl (Or.inl rfl)).trans (by decide),
          ((c1_startup_resolution none none []).2.2.2.1 rfl (Or.inl rfl)).trans (by decide)⟩

/-- C2 (counterexample): the claim "if the view id is `diary` or `memories`,
the `dia` parameter is cleared or omitted" fails for `memories`: activating
the memories tab sets `dia=memories` in the address rather than clearing
it. -/
theorem c2_url_reflection_counterexample :
    (openTab ["tab-1", "tab-diary", "tab-memories"] "memories").urlDia = some "memories"
    ∧ (openTab ["tab-1", "tab-diary", "tab-memories"] "memories").urlDia ≠ none := by
  refine ⟨by decide, by decide⟩

/-- C2 (amended): `openTab` reflects the view id into the address as follows:
every id other than `diary` — day ids and `memories` alike — is written to
the `dia` query parameter; only `diary` clears it. -/
theorem c2_url_reflection (tabDomIds : List String) (id : String) :
    (id ≠ "diary" → (openTab tabDomIds id).urlDia = some id)
    ∧ (openTab tabDomIds "diary").urlDia = none := by
  constructor
  · intro h
    simp [openTab, h]
  · simp [openTab]

/-- C2 (witness for the amended theorem): a day id is written to the `dia`
parameter; the diary clears it. -/
theorem c2_url_reflection_witness :
    (openTab ["tab-1"] "2").urlDia = some "2"
    ∧ (openTab ["tab-1"] "diary").urlDia = none :=
  ⟨(c2_url_reflection ["tab-1"] "2").1 (by decide), (c2_url_reflection ["tab-1"] "diary").2⟩

/-- C5 (counterexample): the claim "a previous-day button is present iff a
day with id d-1 exists … including when day ids are not contiguous" fails on
the itinerary with days 1 and 3: the panel for day 3 renders a previous-day
button targeting day 2 even though no day with id 2 exists. -/
theorem c5_adjacent_day_counterexample :
    createPanelNav
        [{ id := some 1, title := "", subtitle := "", highlight := none, schedule := [] },
         { id := some 3, title := "", subtitle := "", highlight := none, schedule := [] }]
        "3"
      = some { prevBtn := some "2", nextBtn := none }
    ∧ ¬ ∃ d ∈ [({ id := some 1, title := "", subtitle := "", highlight := none,
                  schedule := [] } : DayRecord),
               { id := some 3, title := "", subtitle := "", highlight := none,
                  schedule := [] }], d.id = some 2 := by
  refine ⟨by decide, by decide⟩

/-- C5 (amended): for the day panel of a day whose id is the number `n`, the
previous-day button is present iff `n > 1` and the next-day button is present
iff `n` is less than the number of itinerary days (under contiguous ids
`1..N` these coincide with the existence of days `n-1`/`n+1`). -/
theorem c5_adjacent_day_buttons (days : List DayRecord) (id : String) (day : DayRecord)
    (n : Int)
    (hfind : days.find? (fun d => jsNumToString d.id = id) = some day)
    (hid : day.id = some n) :
    ∃ p, createPanelNav days id = some p
      ∧ (p.prevBtn.isSome = true ↔ 1 < n)
      ∧ (p.nextBtn.isSome = true ↔ n < (days.length : Int)) := by
  refine ⟨{ prevBtn := if 1 < n then some (toString (n - 1)) else none,
            nextBtn := if n < (days.length : Int) then some (toString (n + 1)) else none },
          ?_, ?_, ?_⟩
  · simp [createPanelNav, hfind, hid]
  · by_cases h : 1 < n <;> simp [h]
  · by_cases h : n < (days.length : Int) <;> simp [h]

/-- C5 (witness for the amended theorem): in a three-day itinerary the panel
for day 2 has both buttons (2 > 1 and 2 < 3). -/
theorem c5_adjacent_day_buttons_witness :
    ∃ p, createPanelNav
        [{ id := some 1, title := "", subtitle := "", highlight := none, schedule := [] },
         { id := some 2, title := "", subtitle := "", highlight := none, schedule := [] },
         { id := some 3, title := "", subtitle := "", highlight := none, schedule := [] }]
        "2"
      = some p
      ∧ (p.prevBtn.isSome = true ↔ 1 < (2 : Int))
      ∧ (p.nextBtn.isSome = true ↔ (2 : Int) < (([
          { id := some 1, title := "", subtitle := "", highlight := none, schedule := [] },
          { id := some 2, title := "", subtitle := "", highlight := none, schedule := [] },
          { id := some 3, title := "", subtitle := "", highlight := none, schedule := [] }] :
            List DayRecord).length : Int)) :=
  c5_adjacent_day_buttons _ "2"
    { id := some 2, title := "", subtitle := "", highlight := none, schedule := [] }
    2 (by decide) rfl

/-- C4: the day-tab label produced by `updateDayProgress`: with `total > 0`
and `completed < total` the base text `Dia N` is followed by the badge
`(completed/total)`; with `total > 0` and `completed = total` it is followed
by the completion mark; with `total = 0` it is the base text alone. -/
theorem c4_progress_label (ls : LocalStorage) (days : List DayRecord) (dayId : String)
    (day : DayRecord)
    (hfind : days.find? (fun d => jsNumToString d.id = dayId) = some day) :
    (0 < day.schedule.length →
      completedCount ls dayId day.schedule.length < day.schedule.length →
      updateDayProgress ls days dayId
        = some ("Dia " ++ dayId ++ " ("
            ++ toString (completedCount ls dayId day.schedule.length) ++ "/"
            ++ toString day.schedule.length ++ ")"))
    ∧ (0 < day.schedule.length →
        completedCount ls dayId day.schedule.length = day.schedule.length →
        updateDayProgress ls days dayId = some ("Dia " ++ dayId ++ " ✓"))
    ∧ (day.schedule.length = 0 →
        updateDayProgress ls days dayId = some ("Dia " ++ dayId)) := by
  have hupd : updateDayProgress ls days dayId
      = some (dayTabLabel dayId day.schedule.length
          (completedCount ls dayId day.schedule.length)) := by
    unfold updateDayProgress
    rw [hfind]
  refine ⟨?_, ?_, ?_⟩
  · intro hpos hlt
    rw [hupd]
    simp [dayTabLabel, hpos, Nat.ne_of_lt hlt]
  · intro hpos heq
    rw [hupd]
    simp [dayTabLabel, hpos, heq]
  · intro hz
    rw [hupd]
    simp [dayTabLabel, hz]

/-- C4 (witness): a two-item day with one completed item gets the label
`Dia 1 (1/2)`; after completing both it gets `Dia 1 ✓`; a day with no items
keeps the plain label. -/
theorem c4_progress_label_witness :
    updateDayProgress [(itemKeyStr "1" 0, some { completed := some true, note := none })]
        [{ id := some 1, title := "", subtitle := "", highlight := none,
           schedule := [{ time := "", html := "", transport := none },
                        { time := "", html := "", transport := none }] }] "1"
      = some "Dia 1 (1/2)"
    ∧ updateDayProgress
        [(itemKeyStr "2" 0, some { completed := some true, note := none })]
        [{ id := some 2, title := "", subtitle := "", highlight := none,
           schedule := [{ time := "", html := "", transport := none }] }] "2"
      = some "Dia 2 ✓"
    ∧ updateDayProgress []
        [{ id := some 3, title := "", subtitle := "", highlight := none, schedule := [] }] "3"
      = some "Dia 3" := by
  refine ⟨((c4_progress_label
              [(itemKeyStr "1" 0, some { completed := some true, note := none })]
              [{ id := some 1, title := "", subtitle := "", highlight := none,
                 schedule := [{ time := "", html := "", transport := none },
                              { time := "", html := "", transport := none }] }] "1"
              { id := some 1, title := "", subtitle := "", highlight := none,
                schedule := [{ time := "", html := "", transport := none },
                             { time := "", html := "", transport := none }] }
              (by decide)).1 (by decide) (by decide)).trans (by decide),
          ((c4_progress_label
              [(itemKeyStr "2" 0, some { completed := some true, note := none })]
              [{ id := some 2, title := "", subtitle := "", highlight := none,
                 schedule := [{ time := "", html := "", transport := none }] }] "2"
              { id := some 2, title := "", subtitle := "", highlight := none,
                schedule := [{ time := "", html := "", transport := none }] }
              (by decide)).2.1 (by decide) (by decide)).trans (by decide),
          ((c4_progress_label []
              [{ id := some 3, title := "", subtitle := "", highlight := none,
                 schedule := [] }] "3"
              { id := some 3, title := "", subtitle := "", highlight := none,
                schedule := [] }
              (by decide)).2.2 (by decide)).trans (by decide)⟩

/-- Characterisation of the 401 outcome of `POST /auth/login`: it occurs
exactly when both fields are present and non-empty but the credential pair
does not authenticate. -/
theorem authLogin_401_iff (users : List (String × String)) (username password : Option String) :
    (authLogin users username password).status = 401 ↔
      jsTruthy username = true ∧ jsTruthy password = true ∧
      (∀ e, users.find? (fun p => p.1 = username.getD "") = some e →
        ¬(e.2 ≠ "" ∧ e.2 = password.getD "")) := by
  unfold authLogin
  by_cases h : (!(jsTruthy username) || !(jsTruthy password)) = true
  · rw [if_pos h]
    simp only [Bool.or_eq_true, Bool.not_eq_true'] at h
    constructor
    · intro hs
      exact absurd hs (by decide)
    · intro hs
      rcases h with h | h
      · rw [hs.1] at h
        exact absurd h (by decide)
      · rw [hs.2.1] at h
        exact absurd h (by decide)
  · rw [if_neg h]
    simp only [Bool.or_eq_true, Bool.not_eq_true'] at h
    push_neg at h
    obtain ⟨hu, hp⟩ := h
    have hu' : jsTruthy username = true := by
      cases hval : jsTruthy username
      · exact absurd hval hu
      · rfl
    have hp' : jsTruthy password = true := by
      cases hval : jsTruthy password
      · exact absurd hval hp
      · rfl
    cases hfind : users.find? (fun p => p.1 = username.getD "") with
    | none =>
        simp only [hfind]
        constructor
        · intro _
          exact ⟨hu', hp', fun e he => Option.noConfusion he⟩
        · intro _
          trivial
    | some e =>
        simp only [hfind]
        by_cases hc : (e.2 ≠ "" && e.2 == password.getD "") = true
        · rw [if_pos hc]
          simp only [Bool.and_eq_true, decide_eq_true_eq, beq_iff_eq] at hc
          constructor
          · intro hs
            exact absurd hs (by simp)
          · intro hs
            exact absurd hc (hs.2.2 e rfl)
        · rw [if_neg hc]
          simp only [Bool.and_eq_true, decide_eq_true_eq, beq_iff_eq] at hc
          constructor
          · intro _
            refine ⟨hu', hp', fun e' he' => ?_⟩
            cases he'
            exact hc
          · intro _
            trivial

/-- C10: `POST /auth/login` with a missing or empty username or password
returns 400 with the validation error body and records no session; a 401 can
only arise when both credentials are present and non-empty and the pair does
not match the configured users. -/
theorem c10_login_validation (users : List (String × String))
    (username password : Option String) :
    ((username = none ∨ username = some "" ∨ password = none ∨ password = some "") →
      authLogin users username password =
        { status := 400, body := "Usuário e senha são obrigatórios", sessionUser := none })
    ∧ ((authLogin users username password).status = 401 →
        (∃ un, username = some un ∧ un ≠ "") ∧ (∃ pw, password = some pw ∧ pw ≠ ""))
    ∧ ((authLogin users username password).status = 401 →
        ∀ e, users.find? (fun p => p.1 = username.getD "") = some e →
          e.2 = "" ∨ e.2 ≠ password.getD "") := by
  refine ⟨?_, ?_, ?_⟩
  · intro h
    rcases h with h | h | h | h <;> subst h <;> simp [authLogin, jsTruthy]
  · intro h401
    obtain ⟨hu, hp, _⟩ := (authLogin_401_iff users username password).mp h401
    constructor
    · cases username with
      | none => exact absurd hu (by simp [jsTruthy])
      | some un =>
          refine ⟨un, rfl, ?_⟩
          intro he
          subst he
          exact absurd hu (by simp [jsTruthy])
    · cases password with
      | none => exact absurd hp (by simp [jsTruthy])
      | some pw =>
          refine ⟨pw, rfl, ?_⟩
          intro he
          subst he
          exact absurd hp (by simp [jsTruthy])
  · intro h401 e he
    obtain ⟨_, _, hwrong⟩ := (authLogin_401_iff users username password).mp h401
    have := hwrong e he
    by_cases h2 : e.2 = ""
    · exact Or.inl h2
    · refine Or.inr ?_
      intro heq
      exact this ⟨h2, heq⟩

/-- C10 (witness): with the default user table, a request missing the
username gets the 400 validation response, and a wrong pair `gui/errada`
yields 401, i.e. both fields were present and non-empty and the stored
password differs. -/
theorem c10_login_validation_witness :
    authLogin [("carina", "amore"), ("gui", "amoreGui"), ("admin", "password")]
        none (some "x")
      = { status := 400, body := "Usuário e senha são obrigatórios", sessionUser := none }
    ∧ ((∃ un, (some "gui" : Option String) = some un ∧ un ≠ "")
        ∧ (∃ pw, (some "errada" : Option String) = some pw ∧ pw ≠ "")) := by
  refine ⟨(c10_login_validation [("carina", "amore"), ("gui", "amoreGui"),
            ("admin", "password")] none (some "x")).1 (Or.inl rfl),
          (c10_login_validation [("carina", "amore"), ("gui", "amoreGui"),
            ("admin", "password")] (some "gui") (some "errada")).2.1 (by decide)⟩

/-- C7: a `PUT /memories/:id` or `DELETE /memories/:id` request by an
authenticated user who is not the memory's owner returns 403 and leaves the
database — the memory with all its fields and media, its comments, and every
other record — exactly as before. -/
theorem c7_ownership_forbidden (db : DB) (u mid : String) (idx : Nat) (mem : Memory)
    (body : PutBody) (files : List String) (now : String)
    (hidx : db.memories.findIdx? (fun m => m.id = mid) = some idx)
    (hmem : db.memories[idx]? = some mem)
    (huser : mem.user ≠ u) :
    putMemory db u mid body files now = (403, db)
    ∧ deleteMemory db u mid = (403, db) := by
  constructor
  · unfold putMemory
    rw [hidx]
    simp only [hmem]
    rw [if_pos huser]
  · unfold deleteMemory
    rw [hidx]
    simp only [hmem]
    rw [if_pos huser]

/-- C7 (witness): user `gui` hitting a memory owned by `carina` receives 403
from both routes and the one-memory database is untouched. -/
theorem c7_ownership_forbidden_witness :
    putMemory
        { memories := [{ id := "m1", user := "carina", title := "t", text := "",
                         date := "2026-01-16", tags := [], location := "",
                         status := "draft", media := [], day := none,
                         createdAt := "c", updatedAt := "c", reactions := [] }],
          comments := [] }
        "gui" "m1"
        { title := none, text := none, date := none, tags := none,
          location := none, status := none, day := none }
        [] "now"
      = (403,
         { memories := [{ id := "m1", user := "carina", title := "t", text := "",
                          date := "2026-01-16", tags := [], location := "",
                          status := "draft", media := [], day := none,
                          createdAt := "c", updatedAt := "c", reactions := [] }],
           comments := [] })
    ∧ deleteMemory
        { memories := [{ id := "m1", user := "carina", title := "t", text := "",
                         date := "2026-01-16", tags := [], location := "",
                         status := "draft", media := [], day := none,
                         createdAt := "c", updatedAt := "c", reactions := [] }],
          comments := [] }
        "gui" "m1"
      = (403,
         { memories := [{ id := "m1", user := "carina", title := "t", text := "",
                          date := "2026-01-16", tags := [], location := "",
                          status := "draft", media := [], day := none,
                          createdAt := "c", updatedAt := "c", reactions := [] }],
           comments := [] }) :=
  c7_ownership_forbidden
    { memories := [{ id := "m1", user := "carina", title := "t", text := "",
                     date := "2026-01-16", tags := [], location := "",
                     status := "draft", media := [], day := none,
                     createdAt := "c", updatedAt := "c", reactions := [] }],
      comments := [] }
    "gui" "m1" 0
    { id := "m1", user := "carina", title := "t", text := "",
      date := "2026-01-16", tags := [], location := "",
      status := "draft", media := [], day := none,
      createdAt := "c", updatedAt := "c", reactions := [] }
    { title := none, text := none, date := none, tags := none,
      location := none, status := none, day := none }
    [] "now" (by decide) (by decide) (by decide)

/-- C9: over a well-formed source document the extractor produces exactly one
`DayRecord` per day block, in document order, removes every consumed block
from the document, and maps a missing highlight or transport to `none` and a
missing time label to the empty string (it is a total function, so no input
raises an exception). -/
theorem c9_extractor (doc : Document) (_hwf : wellFormedDoc doc = true) :
    (parseItinerary doc).1 = doc.dayCards.map extractCard
    ∧ (parseItinerary doc).1.length = doc.dayCards.length
    ∧ (parseItinerary doc).2.dayCards = []
    ∧ ∀ card ∈ doc.dayCards,
        (card.highlightEl = none → (extractCard card).highlight = none)
        ∧ ∀ row ∈ card.rows,
            ((extractRow row).transport = none ↔ row.transportEl = none)
            ∧ (row.timeEl = none → (extractRow row).time = "") := by
  have h1 : (parseItinerary doc).1 = doc.dayCards.map extractCard := by
    unfold parseItinerary
    rw [parseItinerary_fst_aux]
    rfl
  refine ⟨h1, by rw [h1]; simp, ?_, ?_⟩
  · unfold parseItinerary
    exact parseItinerary_snd_aux doc.dayCards ([], doc) rfl
  · intro card _
    constructor
    · intro hh
      simp [extractCard, hh]
    · intro row _
      constructor
      · simp [extractRow, Option.map_eq_none']
      · intro ht
        simp [extractRow, ht]

/-- C9 (witness): a concrete two-block document in ascending id order — the
extractor yields both records in order, empties the document, and defaults
the absent highlight, transport and time fields. -/
theorem c9_extractor_witness :
    (parseItinerary { dayCards :=
        [{ dataDay := "1", titleEl := some "T1", subEl := none, highlightEl := none,
           rows := [{ timeEl := none, transportEl := none, restHtml := "r" }] },
         { dataDay := "2", titleEl := none, subEl := some "S2", highlightEl := some "H",
           rows := [] }] }).1
      = ({ dayCards :=
        [{ dataDay := "1", titleEl := some "T1", subEl := none, highlightEl := none,
           rows := [{ timeEl := none, transportEl := none, restHtml := "r" }] },
         { dataDay := "2", titleEl := none, subEl := some "S2", highlightEl := some "H",
           rows := [] }] } : Document).dayCards.map extractCard
    ∧ (parseItinerary { dayCards :=
        [{ dataDay := "1", titleEl := some "T1", subEl := none, highlightEl := none,
           rows := [{ timeEl := none, transportEl := none, restHtml := "r" }] },
         { dataDay := "2", titleEl := none, subEl := some "S2", highlightEl := some "H",
           rows := [] }] }).1.length = 2
    ∧ (parseItinerary { dayCards :=
        [{ dataDay := "1", titleEl := some "T1", subEl := none, highlightEl := none,
           rows := [{ timeEl := none, transportEl := none, restHtml := "r" }] },
         { dataDay := "2", titleEl := none, subEl := some "S2", highlightEl := some "H",
           rows := [] }] }).2.dayCards = [] := by
  have h := c9_extractor { dayCards :=
      [{ dataDay := "1", titleEl := some "T1", subEl := none, highlightEl := none,
         rows := [{ timeEl := none, transportEl := none, restHtml := "r" }] },
       { dataDay := "2", titleEl := none, subEl := some "S2", highlightEl := some "H",
         rows := [] }] } (by decide)
  exact ⟨h.1, h.2.1.trans (by decide), h.2.2.1⟩

/-- C3: keyboard navigation in the tab strip: with the last tab selected,
ArrowRight wraps focus and activation to the first tab; with the first tab
selected, ArrowLeft wraps to the last tab; Home and End jump to the first
and last tab and activate them; Enter and Space activate the tab the event
targets without moving focus. -/
theorem c3_keyboard_nav (tabs : List TabBtn) (tFirst tLast : TabBtn)
    (hfirst : tabs[0]? = some tFirst)
    (hlast : tabs[tabs.length - 1]? = some tLast) :
    (findSelectedIndex tabs = (tabs.length : Int) - 1 → ∀ target,
        handleTabKeyNav tabs JsKey.arrowRight target
          = { focused := some (getIdFromTab tFirst.domId),
              opened := some (getIdFromTab tFirst.domId) })
    ∧ (findSelectedIndex tabs = 0 → ∀ target,
        handleTabKeyNav tabs JsKey.arrowLeft target
          = { focused := some (getIdFromTab tLast.domId),
              opened := some (getIdFromTab tLast.domId) })
    ∧ (∀ target, handleTabKeyNav tabs JsKey.homeKey target
          = { focused := some (getIdFromTab tFirst.domId),
              opened := some (getIdFromTab tFirst.domId) })
    ∧ (∀ target, handleTabKeyNav tabs JsKey.endKey target
          = { focused := some (getIdFromTab tLast.domId),
              opened := some (getIdFromTab tLast.domId) })
    ∧ (∀ t : TabBtn, handleTabKeyNav tabs JsKey.enter (some t)
          = { focused := none, opened := some (getIdFromTab t.domId) }
        ∧ handleTabKeyNav tabs JsKey.space (some t)
          = { focused := none, opened := some (getIdFromTab t.domId) }) := by
  have hpos : 0 < tabs.length := by
    cases tabs with
    | nil => exact absurd hfirst (by simp)
    | cons a t => simp
  have hne : ¬ tabs.length = 0 := Nat.pos_iff_ne_zero.mp hpos
  have hcastlast : (((tabs.length - 1 : Nat)) : Int) = (tabs.length : Int) - 1 := by
    omega
  have hlastInt : moveToIndex tabs ((tabs.length : Int) - 1)
      = { focused := some (getIdFromTab tLast.domId),
          opened := some (getIdFromTab tLast.domId) } := by
    rw [← hcastlast]
    exact moveToIndex_getElem tabs (tabs.length - 1) tLast hlast
  refine ⟨?_, ?_, ?_, ?_, ?_⟩
  · intro hsel target
    unfold handleTabKeyNav
    rw [if_neg hne]
    show moveToIndex tabs ((findSelectedIndex tabs + 1).tmod (tabs.length : Int)) = _
    rw [hsel]
    have harith : ((tabs.length : Int) - 1 + 1) = (tabs.length : Int) := by ring
    rw [harith, Int.tmod_self]
    exact moveToIndex_getElem tabs 0 tFirst hfirst
  · intro hsel target
    unfold handleTabKeyNav
    rw [if_neg hne]
    show moveToIndex tabs ((findSelectedIndex tabs - 1 + (tabs.length : Int)).tmod
        (tabs.length : Int)) = _
    rw [hsel]
    have harith : ((0 : Int) - 1 + (tabs.length : Int)) = (tabs.length : Int) - 1 := by ring
    rw [harith]
    have h0 : (0 : Int) ≤ (tabs.length : Int) - 1 := by omega
    have h0' : (0 : Int) ≤ (tabs.length : Int) := by omega
    rw [Int.tmod_eq_emod h0 h0', Int.emod_eq_of_lt h0 (by omega)]
    exact hlastInt
  · intro target
    unfold handleTabKeyNav
    rw [if_neg hne]
    show moveToIndex tabs 0 = _
    exact moveToIndex_getElem tabs 0 tFirst hfirst
  · intro target
    unfold handleTabKeyNav
    rw [if_neg hne]
    show moveToIndex tabs ((tabs.length : Int) - 1) = _
    exact hlastInt
  · intro t
    constructor <;> (unfold handleTabKeyNav; rw [if_neg hne])

/-- C3 (witness): a concrete three-tab strip — ArrowRight from the selected
last tab activates tab `1`; ArrowLeft from the selected first tab activates
tab `3`; Home and End activate tabs `1` and `3`; Enter and Space activate
the targeted tab `2`. -/
theorem c3_keyboard_nav_witness :
    handleTabKeyNav
        [{ domId := "tab-1", selected := false }, { domId := "tab-2", selected := false },
         { domId := "tab-3", selected := true }] JsKey.arrowRight none
      = { focused := some "1", opened := some "1" }
    ∧ handleTabKeyNav
        [{ domId := "tab-1", selected := true }, { domId := "tab-2", selected := false },
         { domId := "tab-3", selected := false }] JsKey.arrowLeft none
      = { focused := some "3", opened := some "3" }
    ∧ handleTabKeyNav
        [{ domId := "tab-1", selected := false }, { domId := "tab-2", selected := false },
         { domId := "tab-3", selected := true }] JsKey.homeKey none
      = { focused := some "1", opened := some "1" }
    ∧ handleTabKeyNav
        [{ domId := "tab-1", selected := false }, { domId := "tab-2", selected := false },
         { domId := "tab-3", selected := true }] JsKey.endKey none
      = { focused := some "3", opened := some "3" }
    ∧ handleTabKeyNav
        [{ domId := "tab-1", selected := false }, { domId := "tab-2", selected := false },
         { domId := "tab-3", selected := true }] JsKey.enter
        (some { domId := "tab-2", selected := false })
      = { focused := none, opened := some "2" } := by
  refine ⟨((c3_keyboard_nav
      [{ domId := "tab-1", selected := false }, { domId := "tab-2", selected := false },
       { domId := "tab-3", selected := true }]
      { domId := "tab-1", selected := false } { domId := "tab-3", selected := true }
      (by decide) (by decide)).1 (by decide) none).trans (by decide),
    ((c3_keyboard_nav
      [{ domId := "tab-1", selected := true }, { domId := "tab-2", selected := false },
       { domId := "tab-3", selected := false }]
      { domId := "tab-1", selected := true } { domId := "tab-3", selected := false }
      (by decide) (by decide)).2.1 (by decide) none).trans (by decide),
    ((c3_keyboard_nav
      [{ domId := "tab-1", selected := false }, { domId := "tab-2", selected := false },
       { domId := "tab-3", selected := true }]
      { domId := "tab-1", selected := false } { domId := "tab-3", selected := true }
      (by decide) (by decide)).2.2.1 none).trans (by decide),
    ((c3_keyboard_nav
      [{ domId := "tab-1", selected := false }, { domId := "tab-2", selected := false },
       { domId := "tab-3", selected := true }]
      { domId := "tab-1", selected := false } { domId := "tab-3", selected := true }
      (by decide) (by decide)).2.2.2.1 none).trans (by decide),
    (((c3_keyboard_nav
      [{ domId := "tab-1", selected := false }, { domId := "tab-2", selected := false },
       { domId := "tab-3", selected := true }]
      { domId := "tab-1", selected := false } { domId := "tab-3", selected := true }
      (by decide) (by decide)).2.2.2.2 { domId := "tab-2", selected := false }).1).trans
      (by decide)⟩

theorem updateDiary_lsSet_empty (ls : LocalStorage) (k : String) :
    updateDiary (lsSet ls k (some { completed := some false, note := none }))
      = updateDiary (lsRemove ls k) := by
  unfold updateDiary lsSet
  rw [List.filterMap_append]
  simp [jsTruthy]

theorem itemCompleted_lsSet_empty (ls : LocalStorage) (k dayId : String) (i : Nat) :
    itemCompleted (lsSet ls k (some { completed := some false, note := none })) dayId i
      = itemCompleted (lsRemove ls k) dayId i := by
  by_cases h : itemKeyStr dayId i = k
  · unfold itemCompleted
    rw [h, lsGet_lsSet_self, lsGet_lsRemove_self]
    rfl
  · unfold itemCompleted
    rw [lsGet_lsSet_other ls k (itemKeyStr dayId i) _ h]

theorem completedCount_lsSet_empty (ls : LocalStorage) (k dayId : String) (total : Nat) :
    completedCount (lsSet ls k (some { completed := some false, note := none })) dayId total
      = completedCount (lsRemove ls k) dayId total := by
  unfold completedCount
  induction total with
  | zero => rfl
  | succ n ih =>
      rw [List.range_succ, List.countP_append, List.countP_append, ih]
      simp [List.countP_cons, itemCompleted_lsSet_empty]

/-- C8: storing an `ItemState` with `completed = false` and no note for a
`(day, index)` pair is observationally equivalent to the pair being absent
from storage: the item is reported as not completed and shows no note, the
diary gains no entry, and no day's completed count changes, all exactly as
for the store with the key removed. -/
theorem c8_empty_state_equiv_absent (ls : LocalStorage) (day idx : Nat) :
    itemCompleted (lsSet ls (itemKey day idx) (some { completed := some false, note := none }))
        (toString day) idx = false
    ∧ itemNoteDisplay (lsSet ls (itemKey day idx)
          (some { completed := some false, note := none })) (toString day) idx = none
    ∧ itemCompleted (lsRemove ls (itemKey day idx)) (toString day) idx = false
    ∧ updateDiary (lsSet ls (itemKey day idx) (some { completed := some false, note := none }))
        = updateDiary (lsRemove ls (itemKey day idx))
    ∧ ∀ dayId total,
        completedCount (lsSet ls (itemKey day idx)
            (some { completed := some false, note := none })) dayId total
          = completedCount (lsRemove ls (itemKey day idx)) dayId total := by
  have hk : itemKeyStr (toString day) idx = itemKey day idx := rfl
  refine ⟨?_, ?_, ?_, updateDiary_lsSet_empty ls (itemKey day idx),
          fun dayId total => completedCount_lsSet_empty ls (itemKey day idx) dayId total⟩
  · unfold itemCompleted
    rw [hk, lsGet_lsSet_self]
    rfl
  · unfold itemNoteDisplay
    rw [hk, lsGet_lsSet_self]
  · unfold itemCompleted
    rw [hk, lsGet_lsRemove_self]

theorem statusStage_iff (st : Option String) (m : Memory) :
    (jsTruthy st = true → (m.status == st.getD "") = true)
      ↔ (∀ s, st = some s → s ≠ "" → m.status = s) := by
  cases st with
  | none => simp [jsTruthy]
  | some s =>
      by_cases hs : s = ""
      · subst hs
        simp [jsTruthy]
      · simp [jsTruthy, hs]

theorem dayStage_iff (od : Option String) (m : Memory) :
    (dayParamActive od = true → dayMatches (od.getD "") m = true)
      ↔ (∀ d, od = some d → jsTrim d ≠ "" → ∃ v, m.day = some v ∧ DayVal.toStr v = d) := by
  cases od with
  | none => simp [dayParamActive]
  | some s =>
      by_cases hs : jsTrim s = ""
      · simp [dayParamActive, hs]
      · constructor
        · intro h d hd hne
          cases hd
          have hb := h (by simp [dayParamActive, hs])
          unfold dayMatches at hb
          cases hmv : m.day with
          | some v =>
              rw [hmv] at hb
              exact ⟨v, rfl, by simpa using hb⟩
          | none =>
              rw [hmv] at hb
              simp at hb
        · intro h _
          obtain ⟨v, hv, hvs⟩ := h s rfl hs
          unfold dayMatches
          rw [hv]
          simpa using hvs

theorem qStage_iff (oq : Option String) (m : Memory) :
    (jsTruthy oq = true →
        ((m.title ≠ "" && strIncludes (jsToLower m.title) (jsToLower (oq.getD "")))
          || (m.text ≠ "" && strIncludes (jsToLower m.text) (jsToLower (oq.getD "")))) = true)
      ↔ (jsTruthy oq = true →
          strIncludes (jsToLower m.title) (jsToLower (oq.getD "")) = true
          ∨ strIncludes (jsToLower m.text) (jsToLower (oq.getD "")) = true) := by
  cases oq with
  | none => simp [jsTruthy]
  | some s =>
      by_cases hs : s = ""
      · subst hs
        simp [jsTruthy]
      · constructor
        · intro h ht
          exact (qFilter_iff m.title m.text s hs).mp (h ht)
        · intro h ht
          exact (qFilter_iff m.title m.text s hs).mpr (h ht)

/-- C6: for an authenticated session, `GET /memories` returns exactly the
stored memories that satisfy every supplied filter: `q` matches when the
lowercased title or text contains the lowercased query, `status` by exact
equality, a present non-blank `day` by string comparison against the
memory's `day` field (an absent or blank `day` filters nothing), and
`from`/`to` bound the memory's date inclusively. -/
theorem c6_memories_filter (db : DB) (u : String) (qy : MemQuery)
    (parseDate : String → Option Int) (htag : qy.tag = none) :
    (getMemoriesRoute (some u) db qy parseDate).1 = 200
    ∧ ∀ m, m ∈ (getMemoriesRoute (some u) db qy parseDate).2 ↔
        (m ∈ db.memories ∧ memoriesFilterSpec qy parseDate m) := by
  constructor
  · rfl
  · intro m
    show m ∈ getMemoriesList db.memories qy parseDate ↔ _
    unfold getMemoriesList memoriesFilterSpec
    rw [htag]
    simp only [mem_guard_filter]
    constructor
    · rintro ⟨⟨⟨⟨⟨⟨hm, _⟩, hstat⟩, hdayg⟩, hfrom⟩, hto⟩, hq⟩
      exact ⟨hm, (qStage_iff qy.q m).mp hq, (statusStage_iff qy.status m).mp hstat,
             (dayStage_iff qy.day m).mp hdayg, hfrom, hto⟩
    · rintro ⟨hm, hq, hstat, hdayspec, hfrom, hto⟩
      exact ⟨⟨⟨⟨⟨⟨hm, fun h => absurd h (by decide)⟩,
             (statusStage_iff qy.status m).mpr hstat⟩,
             (dayStage_iff qy.day m).mpr hdayspec⟩, hfrom⟩, hto⟩,
             (qStage_iff qy.q m).mpr hq⟩

/-- C6 (witness): a concrete authenticated query `status=public&q=praia`
over a one-memory database — status 200 and the membership characterisation
hold with the `tag` parameter absent. -/
theorem c6_memories_filter_witness :
    (getMemoriesRoute (some "gui")
        { memories := [{ id := "m1", user := "gui", title := "Praia linda", text := "",
                         date := "2026-01-17", tags := [], location := "",
                         status := "public", media := [], day := none,
                         createdAt := "c", updatedAt := "c", reactions := [] }],
          comments := [] }
        { tag := none, status := some "public", q := some "praia",
          from_ := none, to_ := none, day := none }
        (fun _ => none)).1 = 200
    ∧ ∀ m, m ∈ (getMemoriesRoute (some "gui")
        { memories := [{ id := "m1", user := "gui", title := "Praia linda", text := "",
                         date := "2026-01-17", tags := [], location := "",
                         status := "public", media := [], day := none,
                         createdAt := "c", updatedAt := "c", reactions := [] }],
          comments := [] }
        { tag := none, status := some "public", q := some "praia",
          from_ := none, to_ := none, day := none }
        (fun _ => none)).2 ↔
        (m ∈ [({ id := "m1", user := "gui", title := "Praia linda", text := "",
                 date := "2026-01-17", tags := [], location := "",
                 status := "public", media := [], day := none,
                 createdAt := "c", updatedAt := "c", reactions := [] } : Memory)]
          ∧ memoriesFilterSpec
              { tag := none, status := some "public", q := some "praia",
                from_ := none, to_ := none, day := none } (fun _ => none) m) :=
  c6_memories_filter _ "gui" _ _ rfl
